import Mathlib

/-
Verification development for the getUserMedia resolution sandbox.

The repository holds four variants of the same single-component camera app:
 - `AppSimple`  : src/src/App.tsx, first component (lines 3-99)
 - `AppCaps`    : src/src/App.tsx, second component (lines 282-560),
                  capability-driven facing mode, settling delay
 - `PartSimple` : src/unnamed/part_000, first component (lines 3-136),
                  settling delay, facing mode attached as an exact value
 - `PartCustom` : src/unnamed/part_000, second component (lines 390-698),
                  buildConstraints with the exact/ideal device-id toggle and
                  device-identity match tracking

Pure data and the constraint builders are embedded directly; the awaited
platform calls (getUserMedia, enumerateDevices, the settling delay) are
passed in as explicit outcomes, and the observable order of the calls is
modelled as an explicit event trace.
-/

/-- The `{ width, height }` pairs held in React state (`resolution`,
`maxResolution`, `minResolution`, `actualResolution`). -/
structure Resolution where
  width : Nat
  height : Nat
deriving DecidableEq

/-- A media track's `kind` ("video" / "audio"). -/
inductive TrackKind where
  | video
  | audio
deriving DecidableEq

/-- The part of `track.getSettings()` the code inspects.  `deviceId` is
`string | undefined` in the platform API; `none` models `undefined`. -/
structure TrackSettings where
  deviceId : Option String
  width : Option Nat
  height : Option Nat
deriving DecidableEq

/-- A live media track.  `getCapabilities()` / `getConstraints()` results are
only stored and rendered, never inspected, so they are carried as opaque
payloads. -/
structure Track where
  kind : TrackKind
  settings : TrackSettings
  capabilitiesBlob : String
  constraintsBlob : String
deriving DecidableEq

/-- A MediaStream: the list of tracks returned by `getTracks()`. -/
structure MediaStream where
  tracks : List Track
deriving DecidableEq

/-- The `trackCorrespondences` snapshot `{ capabilities, constraints,
settings }` stored per track after acquisition. -/
structure TrackInfo where
  capabilitiesBlob : String
  constraintsBlob : String
  settings : TrackSettings
deriving DecidableEq

/-- `MediaDeviceInfo.kind`. -/
inductive DeviceKind where
  | videoinput
  | audioinput
  | audiooutput
deriving DecidableEq

/-- A `MediaDeviceInfo` descriptor from `enumerateDevices()`. -/
structure DeviceInfo where
  deviceId : String
  groupId : String
  kind : DeviceKind
  label : String
deriving DecidableEq

/-- A numeric capability range `{ min?, max? }`. -/
structure NumRange where
  min : Option Nat
  max : Option Nat
deriving DecidableEq

/-- The slice of `MediaTrackCapabilities` the code reads: the facing-mode
array and the width/height ranges.  `facingMode := some l` models the
`Array.isArray` case; a missing key is `none`. -/
structure Capabilities where
  facingMode : Option (List String)
  width : Option NumRange
  height : Option NumRange
deriving DecidableEq

/-- The `DeviceDetailInfo` record `{ deviceInfo, capabilities? }`. -/
structure DeviceDetail where
  deviceInfo : DeviceInfo
  capabilities : Option Capabilities
deriving DecidableEq

/-- One item of the `enumerateDevices()` result, together with the
capabilities obtainable from it when it is an `InputDeviceInfo`
(`caps := none` models a non-`InputDeviceInfo` entry). -/
structure EnumItem where
  info : DeviceInfo
  caps : Option Capabilities
deriving DecidableEq

/-- A thrown JavaScript value: either an `Error` instance carrying a
message, or any non-`Error` value. -/
inductive Thrown where
  | errorVal (msg : String)
  | nonError
deriving DecidableEq

/-- The `err instanceof Error` test. -/
def Thrown.isError : Thrown → Bool
  | .errorVal _ => true
  | .nonError => false

/-- The `err.message` read in the catch blocks. -/
def Thrown.msgOf : Thrown → String
  | .errorVal m => m
  | .nonError => ""

/-- A device-id constraint value: `{ exact: id }` or `{ ideal: id }`. -/
inductive IdC where
  | exact (id : String)
  | ideal (id : String)
deriving DecidableEq

/-- A width/height constraint: either a bare scalar number, or the object
`{ ideal, ...max?, ...min? }` built when a bound toggle is on.  The object
constructor has exactly the `ideal`, `max`, `min` fields, mirroring the
object literal in the source; a `none` bound models an absent key. -/
inductive DimC where
  | scalar (val : Nat)
  | rangeObj (ideal : Nat) (max : Option Nat) (min : Option Nat)
deriving DecidableEq

/-- A facing-mode constraint value: `{ exact: mode }` (part_000 first
variant) or the bare string `mode` (App.tsx second variant). -/
inductive FacingConstraint where
  | exactMode (mode : String)
  | plainMode (mode : String)
deriving DecidableEq

/-- The `video:` member of the constraints literal in the three non-custom
variants.  `facingMode := none` models an omitted key. -/
structure VideoConstraints where
  width : DimC
  height : DimC
  facingMode : Option FacingConstraint
deriving DecidableEq

/-- The `MediaStreamConstraints` literal of the non-custom variants.  Note
the source spreads the device id at the TOP level of this object (a sibling
of `video`), which this field mirrors. -/
structure TopConstraints where
  deviceId : Option IdC
  video : VideoConstraints
deriving DecidableEq

/-- Result of the awaited `getUserMedia` call inside `startStream`. -/
inductive GumOutcome where
  | success (st : MediaStream)
  | failure (v : Thrown)
deriving DecidableEq

/-- Result of the awaited platform calls inside `fetchDevices`: the initial
permission-grant `getUserMedia` may throw, then `enumerateDevices` may
throw, else both succeed. -/
inductive FetchOutcome where
  | gumFail (v : Thrown)
  | enumFail (granted : List Track) (v : Thrown)
  | ok (granted : List Track) (found : List EnumItem)
deriving DecidableEq

/-- Observable steps of a `startStream` run: the synchronous `stopStream`
call (with its return value), the `setTimeout` settling delay (with its
duration in milliseconds), and the issuing of the `getUserMedia`
acquisition request. -/
inductive StartEvent where
  | stopCall (returned : Bool)
  | settleDelay (ms : Nat)
  | acquire
deriving DecidableEq

/-- Observable steps of a `fetchDevices` run: the permission-grant
`getUserMedia`, the `enumerateDevices` call, the loop stopping every track
of the transient stream, and the three descriptor publications. -/
inductive FetchEvent where
  | gumGrant (granted : List Track)
  | enumerateCall (found : List EnumItem)
  | stopTracks (granted : List Track)
  | publishDetails (details : List DeviceDetail)
  | publishVideo (infos : List DeviceInfo)
  | publishAudio (infos : List DeviceInfo)
deriving DecidableEq

/-- Recognizer for the `stopStream` call event. -/
def isStopCallEv : StartEvent → Bool
  | .stopCall _ => true
  | _ => false

/-- Recognizer for the settling-delay event. -/
def isDelayEv : StartEvent → Bool
  | .settleDelay _ => true
  | _ => false

/-- Recognizer for the acquisition-request event. -/
def isAcquireEv : StartEvent → Bool
  | .acquire => true
  | _ => false

/-- Recognizer for the track-stopping loop event. -/
def isStopTracksEv : FetchEvent → Bool
  | .stopTracks _ => true
  | _ => false

/-- Recognizer for the `enumerateDevices` event. -/
def isEnumerateEv : FetchEvent → Bool
  | .enumerateCall _ => true
  | _ => false

/-- Recognizer for any descriptor-publication event. -/
def isPublishEv : FetchEvent → Bool
  | .publishDetails _ => true
  | .publishVideo _ => true
  | .publishAudio _ => true
  | _ => false

/-- Every event satisfying `p` occurs strictly before every event
satisfying `q` in the trace `tr`. -/
def eventsBefore {α : Type} (p q : α → Bool) (tr : List α) : Prop :=
  ∀ (i : Nat), (hi : i < tr.length) → ∀ (j : Nat), (hj : j < tr.length) →
    p (tr.get ⟨i, hi⟩) = true → q (tr.get ⟨j, hj⟩) = true → i < j

instance eventsBeforeDecidable {α : Type} (p q : α → Bool) (tr : List α) :
    Decidable (eventsBefore p q tr) :=
  inferInstanceAs (Decidable (∀ (i : Nat), (hi : i < tr.length) →
    ∀ (j : Nat), (hj : j < tr.length) →
    p (tr.get ⟨i, hi⟩) = true → q (tr.get ⟨j, hj⟩) = true → i < j))

namespace AppSimple

/-- Component state of the first App.tsx variant (its useState fields plus
the video element's `srcObject` binding). -/
structure State where
  resolution : Resolution
  useMaxResolution : Bool
  maxResolution : Resolution
  useMinResolution : Bool
  minResolution : Resolution
  error : String
  actualResolution : Resolution
  devices : List DeviceInfo
  selectedDevice : String
  srcObject : Option MediaStream
deriving DecidableEq

/-- The `constraints` literal built inside `startStream` (App.tsx lines
51-68): device id spread at top level when a device is selected, and
width/height either bare scalars or `{ ideal, max?, min? }` objects
depending on the bound toggles. -/
def startConstraints (s : State) : TopConstraints :=
  { deviceId := if s.selectedDevice ≠ "" then some (IdC.exact s.selectedDevice) else none
    video :=
      if s.useMaxResolution || s.useMinResolution then
        { width := DimC.rangeObj s.resolution.width
            (if s.useMaxResolution then some s.maxResolution.width else none)
            (if s.useMinResolution then some s.minResolution.width else none)
          height := DimC.rangeObj s.resolution.height
            (if s.useMaxResolution then some s.maxResolution.height else none)
            (if s.useMinResolution then some s.minResolution.height else none)
          facingMode := none }
      else
        { width := DimC.scalar s.resolution.width
          height := DimC.scalar s.resolution.height
          facingMode := none } }

end AppSimple

namespace PartSimple

/-- Component state of the first part_000 variant. -/
structure State where
  resolution : Resolution
  requestedConstraints : Option TopConstraints
  trackCorrespondences : Option TrackInfo
  useMaxResolution : Bool
  maxResolution : Resolution
  useMinResolution : Bool
  minResolution : Resolution
  error : String
  actualResolution : Resolution
  videoDevices : List DeviceInfo
  loadingDevices : Bool
  audioDevices : List DeviceInfo
  selectedVideoDevice : String
  selectedAudioDevice : String
  facingMode : String
  srcObject : Option MediaStream
deriving DecidableEq

/-- The `constraints` literal built inside `startStream` (part_000 lines
76-100).  A non-empty facing mode is attached as `{ exact: facingMode }`
in both branches, with no capability check; the device id is spread at the
top level of the object. -/
def startConstraints (s : State) : TopConstraints :=
  { deviceId :=
      if s.selectedVideoDevice ≠ "" then some (IdC.exact s.selectedVideoDevice) else none
    video :=
      if s.useMaxResolution || s.useMinResolution then
        { facingMode :=
            if s.facingMode ≠ "" then some (FacingConstraint.exactMode s.facingMode) else none
          width := DimC.rangeObj s.resolution.width
            (if s.useMaxResolution then some s.maxResolution.width else none)
            (if s.useMinResolution then some s.minResolution.width else none)
          height := DimC.rangeObj s.resolution.height
            (if s.useMaxResolution then some s.maxResolution.height else none)
            (if s.useMinResolution then some s.minResolution.height else none) }
      else
        { width := DimC.scalar s.resolution.width
          height := DimC.scalar s.resolution.height
          facingMode :=
            if s.facingMode ≠ "" then some (FacingConstraint.exactMode s.facingMode) else none } }

/-- `stopStream` (part_000 lines 124-136): when a stream is bound, stop
every one of its tracks, unbind the sink, and return true; otherwise do
nothing and return false.  The result carries the return value, the new
state, and the list of tracks on which `stop()` was invoked, in order. -/
def stopStream (s : State) : Bool × State × List Track :=
  match s.srcObject with
  | some st => (true, { s with srcObject := none }, st.tracks)
  | none => (false, s, [])

/-- State effect of `startStream` (part_000 lines 64-122).  `mdOk` models
the `navigator.mediaDevices && getUserMedia` availability guard; the
`GumOutcome` is what the awaited `getUserMedia` did.  The try block first
calls `stopStream`, awaits the settling delay when it returned true (no
state effect), records the freshly built constraints, then acquires; the
catch block sets the error message only for `Error` instances. -/
def startStream (mdOk : Bool) (s : State) (o : GumOutcome) : State :=
  if mdOk then
    let s1 := (stopStream s).2.1
    let s2 := { s1 with requestedConstraints := some (startConstraints s1) }
    match o with
    | .success st =>
        let s3 := st.tracks.foldl
          (fun acc t =>
            { acc with
                trackCorrespondences :=
                  some (TrackInfo.mk t.capabilitiesBlob t.constraintsBlob t.settings) }) s2
        { s3 with srcObject := some st }
    | .failure v => if v.isError then { s2 with error := v.msgOf } else s2
  else { s with error := "getUserMedia is not supported in this browser." }

/-- Event trace of a `startStream` run up to the acquisition request
(part_000 lines 64-104): the `stopStream` call, then the 1000 ms settling
delay exactly when that call returned true, then the `getUserMedia`
request.  An unavailable media-devices API yields no events. -/
def startTrace (mdOk : Bool) (s : State) : List StartEvent :=
  if mdOk then
    let stopped := (stopStream s).1
    [StartEvent.stopCall stopped]
      ++ (if stopped then [StartEvent.settleDelay 1000] else [])
      ++ [StartEvent.acquire]
  else []

/-- State effect of `fetchDevices` (part_000 lines 24-48).  On success the
enumerated descriptors are partitioned and published; on a throw, the
error message is stored only for `Error` instances and the device lists
are untouched. The `finally` clause always clears the loading flag.  The
second component lists the tracks stopped during the run (in this variant
the transient stream's tracks are stopped before `enumerateDevices`). -/
def fetchDevices (s : State) (o : FetchOutcome) : State × List Track :=
  match o with
  | .gumFail v =>
      (if v.isError then { s with error := v.msgOf, loadingDevices := false }
       else { s with loadingDevices := false }, [])
  | .enumFail granted v =>
      (if v.isError then { s with error := v.msgOf, loadingDevices := false }
       else { s with loadingDevices := false }, granted)
  | .ok granted found =>
      ({ s with
          videoDevices := (found.map EnumItem.info).filter
            (fun d => d.kind == DeviceKind.videoinput)
          audioDevices := (found.map EnumItem.info).filter
            (fun d => d.kind == DeviceKind.audioinput)
          loadingDevices := false }, granted)

/-- Event trace of a successful `fetchDevices` run (part_000 lines 24-48):
permission grant, then the loop stopping every granted track, then
enumeration, then the two descriptor publications. -/
def fetchTraceOk (granted : List Track) (found : List EnumItem) : List FetchEvent :=
  [FetchEvent.gumGrant granted,
   FetchEvent.stopTracks granted,
   FetchEvent.enumerateCall found,
   FetchEvent.publishVideo ((found.map EnumItem.info).filter
     (fun d => d.kind == DeviceKind.videoinput)),
   FetchEvent.publishAudio ((found.map EnumItem.info).filter
     (fun d => d.kind == DeviceKind.audioinput))]

end PartSimple

namespace AppCaps

/-- Component state of the second App.tsx variant. -/
structure State where
  resolution : Resolution
  trackCorrespondences : Option TrackInfo
  useMaxResolution : Bool
  maxResolution : Resolution
  useMinResolution : Bool
  minResolution : Resolution
  widthRange : NumRange
  heightRange : NumRange
  error : String
  actualResolution : Resolution
  videoDevices : List DeviceInfo
  loadingDevices : Bool
  audioDevices : List DeviceInfo
  deviceDetails : List DeviceDetail
  selectedVideoDevice : String
  selectedAudioDevice : String
  facingMode : String
  availableFacingModes : List String
  srcObject : Option MediaStream
deriving DecidableEq

/-- `getSelectedDeviceCapabilities` (App.tsx lines 460-468): null when no
device is selected, otherwise the selected device's capabilities from
`deviceDetails` (null when absent). -/
def getSelectedDeviceCapabilities (s : State) : Option Capabilities :=
  if s.selectedVideoDevice = "" then none
  else
    match s.deviceDetails.find? (fun d => d.deviceInfo.deviceId = s.selectedVideoDevice) with
    | some d => d.capabilities
    | none => none

/-- The `facingModeConstraint` computed inside `startStream` (App.tsx
lines 486-500): attached (as the bare selected value) only when the
selected facing mode is non-empty, the selected device reports a
facing-mode capability, and the selected value is in that list. -/
def facingModeConstraintOf (s : State) : Option FacingConstraint :=
  if s.facingMode ≠ "" then
    match getSelectedDeviceCapabilities s with
    | some caps =>
        match caps.facingMode with
        | some modes =>
            if s.facingMode ∈ modes then some (FacingConstraint.plainMode s.facingMode)
            else none
        | none => none
    | none => none
  else none

/-- The facing-mode list the selected device advertises: the facing-mode
capability of the selected device, empty when the device or the capability
is missing. -/
def advertisedFacingModes (s : State) : List String :=
  ((getSelectedDeviceCapabilities s).bind Capabilities.facingMode).getD []

/-- The `constraints` literal built inside `startStream` (App.tsx lines
502-526): device id spread at top level, width/height per the bound
toggles, and the capability-checked facing-mode constraint spread into the
video object in both branches. -/
def startConstraints (s : State) : TopConstraints :=
  { deviceId :=
      if s.selectedVideoDevice ≠ "" then some (IdC.exact s.selectedVideoDevice) else none
    video :=
      if s.useMaxResolution || s.useMinResolution then
        { facingMode := facingModeConstraintOf s
          width := DimC.rangeObj s.resolution.width
            (if s.useMaxResolution then some s.maxResolution.width else none)
            (if s.useMinResolution then some s.minResolution.width else none)
          height := DimC.rangeObj s.resolution.height
            (if s.useMaxResolution then some s.maxResolution.height else none)
            (if s.useMinResolution then some s.minResolution.height else none) }
      else
        { width := DimC.scalar s.resolution.width
          height := DimC.scalar s.resolution.height
          facingMode := facingModeConstraintOf s } }

/-- `stopStream` (App.tsx lines 548-560), identical in shape to the
part_000 first variant's. -/
def stopStream (s : State) : Bool × State × List Track :=
  match s.srcObject with
  | some st => (true, { s with srcObject := none }, st.tracks)
  | none => (false, s, [])

/-- State effect of `fetchDevices` (App.tsx lines 309-353).  On success the
detail records are built from the enumeration result and the three
descriptor lists are published; the transient stream's tracks are stopped
between enumeration and publication.  On a throw, the error message is
stored only for `Error` instances and the lists are untouched; if
`enumerateDevices` throws, the stopping loop is never reached. -/
def fetchDevices (s : State) (o : FetchOutcome) : State × List Track :=
  match o with
  | .gumFail v =>
      (if v.isError then { s with error := v.msgOf, loadingDevices := false }
       else { s with loadingDevices := false }, [])
  | .enumFail _ v =>
      (if v.isError then { s with error := v.msgOf, loadingDevices := false }
       else { s with loadingDevices := false }, [])
  | .ok granted found =>
      ({ s with
          deviceDetails := found.map (fun it => DeviceDetail.mk it.info it.caps)
          videoDevices := (found.map EnumItem.info).filter
            (fun d => d.kind == DeviceKind.videoinput)
          audioDevices := (found.map EnumItem.info).filter
            (fun d => d.kind == DeviceKind.audioinput)
          loadingDevices := false }, granted)

/-- Event trace of a successful `fetchDevices` run (App.tsx lines
309-353): permission grant, enumeration, the loop stopping every granted
track, then the three descriptor publications. -/
def fetchTraceOk (granted : List Track) (found : List EnumItem) : List FetchEvent :=
  [FetchEvent.gumGrant granted,
   FetchEvent.enumerateCall found,
   FetchEvent.stopTracks granted,
   FetchEvent.publishDetails (found.map (fun it => DeviceDetail.mk it.info it.caps)),
   FetchEvent.publishVideo ((found.map EnumItem.info).filter
     (fun d => d.kind == DeviceKind.videoinput)),
   FetchEvent.publishAudio ((found.map EnumItem.info).filter
     (fun d => d.kind == DeviceKind.audioinput))]

/-- Event trace of a `startStream` run up to the acquisition request
(App.tsx lines 470-528): the `stopStream` call, then the 1000 ms settling
delay exactly when that call returned true, then the `getUserMedia`
request.  An unavailable media-devices API yields no events. -/
def startTrace (mdOk : Bool) (s : State) : List StartEvent :=
  if mdOk then
    let stopped := (stopStream s).1
    [StartEvent.stopCall stopped]
      ++ (if stopped then [StartEvent.settleDelay 1000] else [])
      ++ [StartEvent.acquire]
  else []

end AppCaps

namespace PartCustom

/-- A value stored in the `customConstraints` dictionary or a built video
constraint: a device-id match, a string ideal/exact, a numeric constraint
`{ ideal?, min?, max?, exact? }`, or a boolean flag — the shapes the form
handlers create. -/
inductive CVal where
  | idMatch (c : IdC)
  | strIdeal (v : String)
  | strExact (v : String)
  | numC (ideal : Option Nat) (min : Option Nat) (max : Option Nat) (exactV : Option Nat)
  | boolFlag (b : Bool)
deriving DecidableEq

/-- JavaScript property read on an object represented as an ordered
association list. -/
def getKey : List (String × CVal) → String → Option CVal
  | [], _ => none
  | (k, v) :: rest, key => if k = key then some v else getKey rest key

/-- JavaScript property assignment: overwrite in place, else append. -/
def setKey : List (String × CVal) → String → CVal → List (String × CVal)
  | [], key, v => [(key, v)]
  | (k, w) :: rest, key, v =>
      if k = key then (key, v) :: rest else (k, w) :: setKey rest key v

/-- Component state of the second part_000 variant. -/
structure State where
  trackCorrespondences : Option TrackInfo
  error : String
  actualResolution : Resolution
  actualDeviceId : Option String
  deviceIdMatch : Option Bool
  videoDevices : List DeviceInfo
  loadingDevices : Bool
  audioDevices : List DeviceInfo
  deviceDetails : List DeviceDetail
  selectedVideoDevice : String
  selectedAudioDevice : String
  customConstraints : List (String × CVal)
  currentCapabilities : Option Capabilities
  activeConstraintKeys : List String
  useExactDeviceId : Bool
  useExactAudioDeviceId : Bool
  srcObject : Option MediaStream
deriving DecidableEq

/-- Initial value of the `useExactDeviceId` toggle: `useState(true)`
(part_000 line 584). -/
def initialUseExactDeviceId : Bool := true

/-- The `videoConstraints` object built inside `buildConstraints`
(part_000 lines 588-604): the device id first, as `{ exact }` or
`{ ideal }` per the toggle, then each active custom constraint copied in. -/
def videoConstraintsOf (s : State) : List (String × CVal) :=
  let base : List (String × CVal) :=
    if s.selectedVideoDevice ≠ "" then
      [("deviceId", CVal.idMatch
        (if s.useExactDeviceId then IdC.exact s.selectedVideoDevice
         else IdC.ideal s.selectedVideoDevice))]
    else []
  s.activeConstraintKeys.foldl
    (fun acc key =>
      match getKey s.customConstraints key with
      | some v => setKey acc key v
      | none => acc) base

/-- The `video:` member of the built constraints: the object when
non-empty, else the literal `true`. -/
inductive VideoField where
  | trueVal
  | obj (l : List (String × CVal))
deriving DecidableEq

/-- The object returned by `buildConstraints` (part_000 lines 588-627). -/
structure Constraints where
  video : VideoField
  audio : Option IdC
deriving DecidableEq

/-- `buildConstraints` (part_000 lines 588-627). -/
def buildConstraints (s : State) : Constraints :=
  let vc := videoConstraintsOf s
  { video := if vc ≠ [] then VideoField.obj vc else VideoField.trueVal
    audio :=
      if s.selectedAudioDevice ≠ "" then
        some (if s.useExactAudioDeviceId then IdC.exact s.selectedAudioDevice
              else IdC.ideal s.selectedAudioDevice)
      else none }

/-- `stopStream` (part_000 lines 681-698): tear down, unbind, and reset
the device-identity state when a stream is bound; no-op otherwise. -/
def stopStream (s : State) : Bool × State × List Track :=
  match s.srcObject with
  | some st =>
      (true,
       { s with srcObject := none, actualDeviceId := none, deviceIdMatch := none },
       st.tracks)
  | none => (false, s, [])

/-- The per-track body of the loop in `startStream` (part_000 lines
647-669): for a video track, record the settings-reported device id
(empty string and undefined collapse to null) and the match verdict
against the requested device id; for every track, store the
correspondence snapshot. -/
def processTrack (acc : State) (t : Track) : State :=
  let acc1 :=
    if t.kind == TrackKind.video then
      let a :=
        { acc with actualDeviceId :=
            match t.settings.deviceId with
            | some d => if d ≠ "" then some d else none
            | none => none }
      match t.settings.deviceId with
      | some d =>
          if acc.selectedVideoDevice ≠ "" ∧ d ≠ "" then
            { a with deviceIdMatch := some (acc.selectedVideoDevice == d) }
          else { a with deviceIdMatch := none }
      | none => { a with deviceIdMatch := none }
    else acc
  { acc1 with
      trackCorrespondences :=
        some (TrackInfo.mk t.capabilitiesBlob t.constraintsBlob t.settings) }

/-- State effect of `startStream` (part_000 lines 629-679): stop the prior
session, await the settling delay when something was stopped, build the
constraints, acquire, then process every returned track and bind the sink;
the catch block sets the error message only for `Error` instances. -/
def startStream (mdOk : Bool) (s : State) (o : GumOutcome) : State :=
  if mdOk then
    let s1 := (stopStream s).2.1
    match o with
    | .success st =>
        let s2 := st.tracks.foldl processTrack s1
        { s2 with srcObject := some st }
    | .failure v => if v.isError then { s1 with error := v.msgOf } else s1
  else { s with error := "getUserMedia is not supported in this browser." }

end PartCustom

/-- A concrete video track reporting device id "cam0" in its settings. -/
def sampleTrack : Track :=
  { kind := TrackKind.video
    settings := { deviceId := some "cam0", width := some 1280, height := some 720 }
    capabilitiesBlob := "caps"
    constraintsBlob := "cons" }

/-- A concrete one-track stream. -/
def sampleStream : MediaStream := { tracks := [sampleTrack] }

/-- A concrete enumeration item: a video-input device with facing modes. -/
def sampleItem : EnumItem :=
  { info := { deviceId := "cam0", groupId := "g0", kind := DeviceKind.videoinput, label := "cam" }
    caps := some { facingMode := some ["user", "environment"], width := none, height := none } }

namespace AppSimple

/-- A concrete state of the first App.tsx variant: both bound toggles off. -/
def sampleState : State :=
  { resolution := { width := 1280, height := 720 }
    useMaxResolution := false
    maxResolution := { width := 0, height := 0 }
    useMinResolution := false
    minResolution := { width := 0, height := 0 }
    error := ""
    actualResolution := { width := 0, height := 0 }
    devices := []
    selectedDevice := ""
    srcObject := none }

end AppSimple

namespace PartSimple

/-- A concrete quiescent state of the first part_000 variant. -/
def sampleState : State :=
  { resolution := { width := 1280, height := 720 }
    requestedConstraints := none
    trackCorrespondences := none
    useMaxResolution := false
    maxResolution := { width := 0, height := 0 }
    useMinResolution := false
    minResolution := { width := 0, height := 0 }
    error := ""
    actualResolution := { width := 0, height := 0 }
    videoDevices := []
    loadingDevices := false
    audioDevices := []
    selectedVideoDevice := ""
    selectedAudioDevice := ""
    facingMode := ""
    srcObject := none }

/-- The sample state with the max bound active. -/
def boundedState : State :=
  { sampleState with useMaxResolution := true, maxResolution := { width := 1920, height := 1080 } }

/-- The sample state with facing mode "user" selected and a device chosen:
the input of the C3 counterexample. -/
def cexState : State :=
  { sampleState with facingMode := "user", selectedVideoDevice := "cam0" }

/-- The sample state with a bound (active) stream. -/
def activeState : State :=
  { sampleState with srcObject := some sampleStream }

end PartSimple

namespace AppCaps

/-- A concrete state of the second App.tsx variant: device "cam0" selected,
its detail record advertising facing modes ["user", "environment"], and
facing mode "user" selected. -/
def sampleState : State :=
  { resolution := { width := 1280, height := 720 }
    trackCorrespondences := none
    useMaxResolution := false
    maxResolution := { width := 0, height := 0 }
    useMinResolution := false
    minResolution := { width := 0, height := 0 }
    widthRange := { min := none, max := none }
    heightRange := { min := none, max := none }
    error := ""
    actualResolution := { width := 0, height := 0 }
    videoDevices := []
    loadingDevices := false
    audioDevices := []
    deviceDetails :=
      [{ deviceInfo := { deviceId := "cam0", groupId := "g0", kind := DeviceKind.videoinput, label := "cam" }
         capabilities := some { facingMode := some ["user", "environment"], width := none, height := none } }]
    selectedVideoDevice := "cam0"
    selectedAudioDevice := ""
    facingMode := "user"
    availableFacingModes := ["user", "environment"]
    srcObject := none }

/-- The sample state with the min bound active. -/
def boundedState : State :=
  { sampleState with useMinResolution := true, minResolution := { width := 640, height := 480 } }

/-- The sample state with a bound (active) stream. -/
def activeState : State :=
  { sampleState with srcObject := some sampleStream }

end AppCaps

namespace PartCustom

/-- A concrete state of the second part_000 variant: device "cam0" selected
with the exact toggle at its default. -/
def sampleState : State :=
  { trackCorrespondences := none
    error := ""
    actualResolution := { width := 0, height := 0 }
    actualDeviceId := none
    deviceIdMatch := none
    videoDevices := []
    loadingDevices := false
    audioDevices := []
    deviceDetails := []
    selectedVideoDevice := "cam0"
    selectedAudioDevice := ""
    customConstraints := [("width", CVal.numC (some 640) none none none)]
    currentCapabilities := none
    activeConstraintKeys := ["width"]
    useExactDeviceId := true
    useExactAudioDeviceId := true
    srcObject := none }

/-- The sample state with a bound (active) stream. -/
def activeState : State :=
  { sampleState with srcObject := some sampleStream }

end PartCustom

/-- C1: with neither bound toggle active, the start action's request carries
width and height as bare scalar values equal to the chosen resolution — not
as range objects — in both cited variants (App.tsx first component,
part_000 first component). -/
theorem claim_c1 (sa : AppSimple.State) (sp : PartSimple.State)
    (ha : sa.useMaxResolution = false ∧ sa.useMinResolution = false)
    (hp : sp.useMaxResolution = false ∧ sp.useMinResolution = false) :
    ((AppSimple.startConstraints sa).video.width = DimC.scalar sa.resolution.width
      ∧ (AppSimple.startConstraints sa).video.height = DimC.scalar sa.resolution.height)
    ∧ ((PartSimple.startConstraints sp).video.width = DimC.scalar sp.resolution.width
      ∧ (PartSimple.startConstraints sp).video.height = DimC.scalar sp.resolution.height) := by
  obtain ⟨ha1, ha2⟩ := ha
  obtain ⟨hp1, hp2⟩ := hp
  simp [AppSimple.startConstraints, PartSimple.startConstraints, ha1, ha2, hp1, hp2]

/-- Witness for C1 at the concrete sample states. -/
theorem claim_c1_witness :
    ((AppSimple.startConstraints AppSimple.sampleState).video.width
        = DimC.scalar AppSimple.sampleState.resolution.width
      ∧ (AppSimple.startConstraints AppSimple.sampleState).video.height
        = DimC.scalar AppSimple.sampleState.resolution.height)
    ∧ ((PartSimple.startConstraints PartSimple.sampleState).video.width
        = DimC.scalar PartSimple.sampleState.resolution.width
      ∧ (PartSimple.startConstraints PartSimple.sampleState).video.height
        = DimC.scalar PartSimple.sampleState.resolution.height) :=
  claim_c1 AppSimple.sampleState PartSimple.sampleState (by decide) (by decide)

/-- C2: with at least one bound toggle active, the request's width and
height are objects whose `ideal` is the chosen resolution, whose `max` key
is present (with the max-resolution values) exactly when the max toggle is
on, and whose `min` key is present (with the min-resolution values) exactly
when the min toggle is on, in both cited variants (part_000 first
component, App.tsx second component). -/
theorem claim_c2 (sp : PartSimple.State) (sa : AppCaps.State)
    (hp : sp.useMaxResolution = true ∨ sp.useMinResolution = true)
    (ha : sa.useMaxResolution = true ∨ sa.useMinResolution = true) :
    ((PartSimple.startConstraints sp).video.width
        = DimC.rangeObj sp.resolution.width
            (if sp.useMaxResolution then some sp.maxResolution.width else none)
            (if sp.useMinResolution then some sp.minResolution.width else none)
      ∧ (PartSimple.startConstraints sp).video.height
        = DimC.rangeObj sp.resolution.height
            (if sp.useMaxResolution then some sp.maxResolution.height else none)
            (if sp.useMinResolution then some sp.minResolution.height else none))
    ∧ ((AppCaps.startConstraints sa).video.width
        = DimC.rangeObj sa.resolution.width
            (if sa.useMaxResolution then some sa.maxResolution.width else none)
            (if sa.useMinResolution then some sa.minResolution.width else none)
      ∧ (AppCaps.startConstraints sa).video.height
        = DimC.rangeObj sa.resolution.height
            (if sa.useMaxResolution then some sa.maxResolution.height else none)
            (if sa.useMinResolution then some sa.minResolution.height else none)) := by
  constructor
  · rcases hp with h | h <;> simp [PartSimple.startConstraints, h]
  · rcases ha with h | h <;> simp [AppCaps.startConstraints, h]

/-- Witness for C2 at the concrete bounded sample states. -/
theorem claim_c2_witness :
    ((PartSimple.startConstraints PartSimple.boundedState).video.width
        = DimC.rangeObj PartSimple.boundedState.resolution.width
            (if PartSimple.boundedState.useMaxResolution
              then some PartSimple.boundedState.maxResolution.width else none)
            (if PartSimple.boundedState.useMinResolution
              then some PartSimple.boundedState.minResolution.width else none)
      ∧ (PartSimple.startConstraints PartSimple.boundedState).video.height
        = DimC.rangeObj PartSimple.boundedState.resolution.height
            (if PartSimple.boundedState.useMaxResolution
              then some PartSimple.boundedState.maxResolution.height else none)
            (if PartSimple.boundedState.useMinResolution
              then some PartSimple.boundedState.minResolution.height else none))
    ∧ ((AppCaps.startConstraints AppCaps.boundedState).video.width
        = DimC.rangeObj AppCaps.boundedState.resolution.width
            (if AppCaps.boundedState.useMaxResolution
              then some AppCaps.boundedState.maxResolution.width else none)
            (if AppCaps.boundedState.useMinResolution
              then some AppCaps.boundedState.minResolution.width else none)
      ∧ (AppCaps.startConstraints AppCaps.boundedState).video.height
        = DimC.rangeObj AppCaps.boundedState.resolution.height
            (if AppCaps.boundedState.useMaxResolution
              then some AppCaps.boundedState.maxResolution.height else none)
            (if AppCaps.boundedState.useMinResolution
              then some AppCaps.boundedState.minResolution.height else none)) :=
  claim_c2 PartSimple.boundedState AppCaps.boundedState (Or.inl (by decide)) (Or.inr (by decide))

/-- Helper: the facing-mode member of the part_000 first variant's built
video constraints, in both toggle branches. -/
theorem PartSimple.startConstraints_facingMode_part (s : PartSimple.State) :
    (PartSimple.startConstraints s).video.facingMode
      = (if s.facingMode ≠ "" then some (FacingConstraint.exactMode s.facingMode) else none) := by
  cases hb : s.useMaxResolution || s.useMinResolution <;>
    simp [PartSimple.startConstraints, hb]

/-- Helper: the facing-mode member of the App.tsx second variant's built
video constraints is the capability-checked constraint, in both toggle
branches. -/
theorem AppCaps.startConstraints_facingMode_caps (s : AppCaps.State) :
    (AppCaps.startConstraints s).video.facingMode = AppCaps.facingModeConstraintOf s := by
  cases hb : s.useMaxResolution || s.useMinResolution <;>
    simp [AppCaps.startConstraints, hb]

/-- C3 counterexample: in the part_000 first variant, with facing mode
"user" selected and a device chosen, the built request contains a
facing-mode constraint even though the advertised facing-mode set is taken
to be empty — so "included iff non-empty and advertised" fails on this
variant (its `startStream` never consults capabilities). -/
theorem claim_c3_counterexample :
    ¬ (((PartSimple.startConstraints PartSimple.cexState).video.facingMode ≠ none)
        ↔ (PartSimple.cexState.facingMode ≠ ""
            ∧ PartSimple.cexState.facingMode ∈ ([] : List String))) := by
  decide

/-- C3 amended: the part_000 first variant attaches the facing mode (as an
exact constraint) whenever it is non-empty, with no capability check; the
App.tsx second variant includes a facing-mode constraint iff the selected
mode is non-empty and the selected device advertises it. -/
theorem claim_c3_amended (sp : PartSimple.State) (sa : AppCaps.State) :
    ((PartSimple.startConstraints sp).video.facingMode
        = (if sp.facingMode ≠ "" then some (FacingConstraint.exactMode sp.facingMode) else none))
    ∧ (((AppCaps.startConstraints sa).video.facingMode ≠ none)
        ↔ (sa.facingMode ≠ "" ∧ sa.facingMode ∈ AppCaps.advertisedFacingModes sa)) := by
  refine ⟨PartSimple.startConstraints_facingMode_part sp, ?_⟩
  rw [AppCaps.startConstraints_facingMode_caps]
  by_cases hf : sa.facingMode = ""
  · simp [AppCaps.facingModeConstraintOf, hf]
  · cases hc : AppCaps.getSelectedDeviceCapabilities sa with
    | none => simp [AppCaps.facingModeConstraintOf, AppCaps.advertisedFacingModes, hf, hc]
    | some caps =>
        cases hm : caps.facingMode with
        | none => simp [AppCaps.facingModeConstraintOf, AppCaps.advertisedFacingModes, hf, hc, hm]
        | some modes =>
            by_cases hmem : sa.facingMode ∈ modes <;>
              simp [AppCaps.facingModeConstraintOf, AppCaps.advertisedFacingModes, hf, hc, hm, hmem]

/-- Witness for the amended C3 at the concrete sample states. -/
theorem claim_c3_amended_witness :
    ((PartSimple.startConstraints PartSimple.cexState).video.facingMode
        = (if PartSimple.cexState.facingMode ≠ ""
            then some (FacingConstraint.exactMode PartSimple.cexState.facingMode) else none))
    ∧ (((AppCaps.startConstraints AppCaps.sampleState).video.facingMode ≠ none)
        ↔ (AppCaps.sampleState.facingMode ≠ ""
            ∧ AppCaps.sampleState.facingMode ∈ AppCaps.advertisedFacingModes AppCaps.sampleState)) :=
  claim_c3_amended PartSimple.cexState AppCaps.sampleState

/-- C4: in a start that follows an active session, the stop call (which
returned true) precedes the 1000 ms settling delay, and the delay precedes
the acquisition request; when the preceding stop tore down nothing
(returned false) no settling delay occurs before acquisition.  Proved for
both cited variants (part_000 first component, App.tsx second component). -/
theorem claim_c4 (sp : PartSimple.State) (sa : AppCaps.State) :
    ((sp.srcObject.isSome = true →
      PartSimple.startTrace true sp
          = [StartEvent.stopCall true, StartEvent.settleDelay 1000, StartEvent.acquire]
        ∧ eventsBefore isStopCallEv isDelayEv (PartSimple.startTrace true sp)
        ∧ eventsBefore isDelayEv isAcquireEv (PartSimple.startTrace true sp))
    ∧ (sp.srcObject.isSome = false →
      PartSimple.startTrace true sp = [StartEvent.stopCall false, StartEvent.acquire]
        ∧ ∀ ms : Nat, StartEvent.settleDelay ms ∉ PartSimple.startTrace true sp))
    ∧ ((sa.srcObject.isSome = true →
      AppCaps.startTrace true sa
          = [StartEvent.stopCall true, StartEvent.settleDelay 1000, StartEvent.acquire]
        ∧ eventsBefore isStopCallEv isDelayEv (AppCaps.startTrace true sa)
        ∧ eventsBefore isDelayEv isAcquireEv (AppCaps.startTrace true sa))
    ∧ (sa.srcObject.isSome = false →
      AppCaps.startTrace true sa = [StartEvent.stopCall false, StartEvent.acquire]
        ∧ ∀ ms : Nat, StartEvent.settleDelay ms ∉ AppCaps.startTrace true sa)) := by
  constructor
  · constructor
    · intro h
      have htr : PartSimple.startTrace true sp
          = [StartEvent.stopCall true, StartEvent.settleDelay 1000, StartEvent.acquire] := by
        cases hsrc : sp.srcObject with
        | none => rw [hsrc] at h; simp at h
        | some st => simp [PartSimple.startTrace, PartSimple.stopStream, hsrc]
      refine ⟨htr, ?_, ?_⟩ <;> rw [htr] <;> decide
    · intro h
      have htr : PartSimple.startTrace true sp
          = [StartEvent.stopCall false, StartEvent.acquire] := by
        cases hsrc : sp.srcObject with
        | none => simp [PartSimple.startTrace, PartSimple.stopStream, hsrc]
        | some st => rw [hsrc] at h; simp at h
      refine ⟨htr, ?_⟩
      intro ms
      rw [htr]
      simp
  · constructor
    · intro h
      have htr : AppCaps.startTrace true sa
          = [StartEvent.stopCall true, StartEvent.settleDelay 1000, StartEvent.acquire] := by
        cases hsrc : sa.srcObject with
        | none => rw [hsrc] at h; simp at h
        | some st => simp [AppCaps.startTrace, AppCaps.stopStream, hsrc]
      refine ⟨htr, ?_, ?_⟩ <;> rw [htr] <;> decide
    · intro h
      have htr : AppCaps.startTrace true sa
          = [StartEvent.stopCall false, StartEvent.acquire] := by
        cases hsrc : sa.srcObject with
        | none => simp [AppCaps.startTrace, AppCaps.stopStream, hsrc]
        | some st => rw [hsrc] at h; simp at h
      refine ⟨htr, ?_⟩
      intro ms
      rw [htr]
      simp

/-- Witness for C4 at concrete active states of both variants. -/
theorem claim_c4_witness :
    (PartSimple.startTrace true PartSimple.activeState
        = [StartEvent.stopCall true, StartEvent.settleDelay 1000, StartEvent.acquire]
      ∧ eventsBefore isStopCallEv isDelayEv (PartSimple.startTrace true PartSimple.activeState)
      ∧ eventsBefore isDelayEv isAcquireEv (PartSimple.startTrace true PartSimple.activeState))
    ∧ (AppCaps.startTrace true AppCaps.activeState
        = [StartEvent.stopCall true, StartEvent.settleDelay 1000, StartEvent.acquire]
      ∧ eventsBefore isStopCallEv isDelayEv (AppCaps.startTrace true AppCaps.activeState)
      ∧ eventsBefore isDelayEv isAcquireEv (AppCaps.startTrace true AppCaps.activeState)) :=
  ⟨(claim_c4 PartSimple.activeState AppCaps.activeState).1.1 (by decide),
   (claim_c4 PartSimple.activeState AppCaps.activeState).2.1 (by decide)⟩

/-- Helper: reading a key other than the one just assigned sees the old
object. -/
theorem PartCustom.getKey_setKey_ne (l : List (String × PartCustom.CVal))
    (k key : String) (v : PartCustom.CVal) (h : k ≠ key) :
    PartCustom.getKey (PartCustom.setKey l k v) key = PartCustom.getKey l key := by
  induction l with
  | nil => simp [PartCustom.setKey, PartCustom.getKey, h]
  | cons p rest ih =>
      obtain ⟨a, w⟩ := p
      by_cases hak : a = k
      · subst hak
        simp [PartCustom.setKey, PartCustom.getKey, h]
      · simp [PartCustom.setKey, PartCustom.getKey, hak, ih]

/-- Helper: the copying loop of `buildConstraints` never touches the
`deviceId` entry as long as `deviceId` is not among the active keys. -/
theorem PartCustom.fold_preserves_deviceId (keys : List String)
    (cc acc : List (String × PartCustom.CVal)) (h : "deviceId" ∉ keys) :
    PartCustom.getKey
      (keys.foldl
        (fun acc2 key =>
          match PartCustom.getKey cc key with
          | some v => PartCustom.setKey acc2 key v
          | none => acc2) acc) "deviceId"
    = PartCustom.getKey acc "deviceId" := by
  induction keys generalizing acc with
  | nil => simp
  | cons k rest ih =>
      have hk : k ≠ "deviceId" := fun hh => h (hh ▸ List.mem_cons_self k rest)
      have hr : "deviceId" ∉ rest := fun hh => h (List.mem_cons_of_mem k hh)
      rw [List.foldl_cons]
      cases hcc : PartCustom.getKey cc k with
      | none => simp only [hcc]; exact ih acc hr
      | some v =>
          simp only [hcc]
          rw [ih _ hr]
          exact PartCustom.getKey_setKey_ne acc k "deviceId" v hk

/-- Helper: the built video constraints carry the device-id entry chosen by
the exact/ideal toggle. -/
theorem PartCustom.videoConstraintsOf_deviceId (s : PartCustom.State)
    (hsel : s.selectedVideoDevice ≠ "") (hkeys : "deviceId" ∉ s.activeConstraintKeys) :
    PartCustom.getKey (PartCustom.videoConstraintsOf s) "deviceId"
      = some (PartCustom.CVal.idMatch
          (if s.useExactDeviceId then IdC.exact s.selectedVideoDevice
           else IdC.ideal s.selectedVideoDevice)) := by
  unfold PartCustom.videoConstraintsOf
  rw [PartCustom.fold_preserves_deviceId _ _ _ hkeys]
  simp [PartCustom.getKey, hsel]

/-- Helper: an object with a readable key is non-empty. -/
theorem PartCustom.ne_nil_of_getKey (l : List (String × PartCustom.CVal))
    (k : String) (v : PartCustom.CVal) (h : PartCustom.getKey l k = some v) :
    l ≠ [] := by
  intro hl
  subst hl
  simp [PartCustom.getKey] at h

/-- C5 counterexample: in the part_000 first variant with device "cam0"
selected, the device id is attached at the TOP level of the request
(`{ exact: "cam0" }` as a sibling of `video`), while the video constraints
member — whose shape, taken from the source literal, consists solely of
width, height and facing mode — carries no device-id entry at all.  This
refutes "attaches the device id inside the video constraints" on a cited
variant; that variant also has no relax toggle. -/
theorem claim_c5_counterexample :
    (PartSimple.startConstraints PartSimple.cexState).deviceId
        = some (IdC.exact "cam0")
    ∧ (PartSimple.startConstraints PartSimple.cexState).video
        = { width := DimC.scalar 1280, height := DimC.scalar 720,
            facingMode := some (FacingConstraint.exactMode "user") } := by
  decide

/-- C5 amended: in `buildConstraints` (part_000's custom variant) the
device id is attached inside the video constraints object, as
`{ exact: deviceId }` with the toggle at its default (initialized true)
and as `{ ideal: deviceId }` with the toggle off.  In the simple variants
(App.tsx first component, part_000 first component) a selected device id
is always attached as `{ exact: deviceId }`, with no relax toggle, and at
the top level of the request rather than inside the video constraints. -/
theorem claim_c5_amended (s : PartCustom.State) (hsel : s.selectedVideoDevice ≠ "")
    (hkeys : "deviceId" ∉ s.activeConstraintKeys)
    (sp : PartSimple.State) (sa : AppSimple.State) :
    PartCustom.initialUseExactDeviceId = true
    ∧ (s.useExactDeviceId = true →
        (PartCustom.buildConstraints s).video
            = PartCustom.VideoField.obj (PartCustom.videoConstraintsOf s)
        ∧ PartCustom.getKey (PartCustom.videoConstraintsOf s) "deviceId"
            = some (PartCustom.CVal.idMatch (IdC.exact s.selectedVideoDevice)))
    ∧ (s.useExactDeviceId = false →
        (PartCustom.buildConstraints s).video
            = PartCustom.VideoField.obj (PartCustom.videoConstraintsOf s)
        ∧ PartCustom.getKey (PartCustom.videoConstraintsOf s) "deviceId"
            = some (PartCustom.CVal.idMatch (IdC.ideal s.selectedVideoDevice)))
    ∧ ((PartSimple.startConstraints sp).deviceId
        = if sp.selectedVideoDevice ≠ ""
          then some (IdC.exact sp.selectedVideoDevice) else none)
    ∧ ((AppSimple.startConstraints sa).deviceId
        = if sa.selectedDevice ≠ "" then some (IdC.exact sa.selectedDevice) else none) := by
  have hdid := PartCustom.videoConstraintsOf_deviceId s hsel hkeys
  have hne := PartCustom.ne_nil_of_getKey _ _ _ hdid
  refine ⟨rfl, ?_, ?_, rfl, rfl⟩ <;> intro hx <;>
    exact ⟨by simp [PartCustom.buildConstraints, hne], by rw [hdid, hx]; simp⟩

/-- Witness for the amended C5 at concrete states of the three variants. -/
theorem claim_c5_amended_witness :
    PartCustom.initialUseExactDeviceId = true
    ∧ (PartCustom.sampleState.useExactDeviceId = true →
        (PartCustom.buildConstraints PartCustom.sampleState).video
            = PartCustom.VideoField.obj (PartCustom.videoConstraintsOf PartCustom.sampleState)
        ∧ PartCustom.getKey (PartCustom.videoConstraintsOf PartCustom.sampleState) "deviceId"
            = some (PartCustom.CVal.idMatch
                (IdC.exact PartCustom.sampleState.selectedVideoDevice)))
    ∧ (PartCustom.sampleState.useExactDeviceId = false →
        (PartCustom.buildConstraints PartCustom.sampleState).video
            = PartCustom.VideoField.obj (PartCustom.videoConstraintsOf PartCustom.sampleState)
        ∧ PartCustom.getKey (PartCustom.videoConstraintsOf PartCustom.sampleState) "deviceId"
            = some (PartCustom.CVal.idMatch
                (IdC.ideal PartCustom.sampleState.selectedVideoDevice)))
    ∧ ((PartSimple.startConstraints PartSimple.cexState).deviceId
        = if PartSimple.cexState.selectedVideoDevice ≠ ""
          then some (IdC.exact PartSimple.cexState.selectedVideoDevice) else none)
    ∧ ((AppSimple.startConstraints AppSimple.sampleState).deviceId
        = if AppSimple.sampleState.selectedDevice ≠ ""
          then some (IdC.exact AppSimple.sampleState.selectedDevice) else none) :=
  claim_c5_amended PartCustom.sampleState (by decide) (by decide)
    PartSimple.cexState AppSimple.sampleState

/-- C6: with a bound stream, the first Stop returns true, stops exactly the
stream's tracks, and unbinds the sink; the immediately following Stop
returns false and changes no state; and Stop from the idle state is always
a no-op returning false.  Proved for both cited variants (part_000 first
component, App.tsx second component). -/
theorem claim_c6 (sp : PartSimple.State) (stp : MediaStream) (hp : sp.srcObject = some stp)
    (sa : AppCaps.State) (sta : MediaStream) (ha : sa.srcObject = some sta) :
    ((PartSimple.stopStream sp).1 = true
      ∧ ((PartSimple.stopStream sp).2.1).srcObject = none
      ∧ (PartSimple.stopStream sp).2.2 = stp.tracks
      ∧ PartSimple.stopStream ((PartSimple.stopStream sp).2.1)
          = (false, (PartSimple.stopStream sp).2.1, [])
      ∧ (∀ s0 : PartSimple.State, s0.srcObject = none →
          PartSimple.stopStream s0 = (false, s0, [])))
    ∧ ((AppCaps.stopStream sa).1 = true
      ∧ ((AppCaps.stopStream sa).2.1).srcObject = none
      ∧ (AppCaps.stopStream sa).2.2 = sta.tracks
      ∧ AppCaps.stopStream ((AppCaps.stopStream sa).2.1)
          = (false, (AppCaps.stopStream sa).2.1, [])
      ∧ (∀ s0 : AppCaps.State, s0.srcObject = none →
          AppCaps.stopStream s0 = (false, s0, []))) := by
  constructor
  · refine ⟨?_, ?_, ?_, ?_, ?_⟩
    · simp [PartSimple.stopStream, hp]
    · simp [PartSimple.stopStream, hp]
    · simp [PartSimple.stopStream, hp]
    · simp [PartSimple.stopStream, hp]
    · intro s0 h0; simp [PartSimple.stopStream, h0]
  · refine ⟨?_, ?_, ?_, ?_, ?_⟩
    · simp [AppCaps.stopStream, ha]
    · simp [AppCaps.stopStream, ha]
    · simp [AppCaps.stopStream, ha]
    · simp [AppCaps.stopStream, ha]
    · intro s0 h0; simp [AppCaps.stopStream, h0]

/-- Witness for C6 at the concrete active states. -/
theorem claim_c6_witness :
    ((PartSimple.stopStream PartSimple.activeState).1 = true
      ∧ ((PartSimple.stopStream PartSimple.activeState).2.1).srcObject = none
      ∧ (PartSimple.stopStream PartSimple.activeState).2.2 = sampleStream.tracks
      ∧ PartSimple.stopStream ((PartSimple.stopStream PartSimple.activeState).2.1)
          = (false, (PartSimple.stopStream PartSimple.activeState).2.1, [])
      ∧ (∀ s0 : PartSimple.State, s0.srcObject = none →
          PartSimple.stopStream s0 = (false, s0, [])))
    ∧ ((AppCaps.stopStream AppCaps.activeState).1 = true
      ∧ ((AppCaps.stopStream AppCaps.activeState).2.1).srcObject = none
      ∧ (AppCaps.stopStream AppCaps.activeState).2.2 = sampleStream.tracks
      ∧ AppCaps.stopStream ((AppCaps.stopStream AppCaps.activeState).2.1)
          = (false, (AppCaps.stopStream AppCaps.activeState).2.1, [])
      ∧ (∀ s0 : AppCaps.State, s0.srcObject = none →
          AppCaps.stopStream s0 = (false, s0, []))) :=
  claim_c6 PartSimple.activeState sampleStream (by decide)
    AppCaps.activeState sampleStream (by decide)

/-- C7: after a successful acquisition of a single-video-track stream, the
device-identity match flag is `some true` exactly when the requested device
id equals the settings-reported id, `some false` exactly when a non-empty
reported id differs from a requested one, and `none` exactly when no device
id was requested or none (or an empty one) is reported; and stopping an
active session resets the flag to `none`. -/
theorem claim_c7 (s : PartCustom.State) (st : MediaStream) (t : Track)
    (hk : t.kind = TrackKind.video) (hst : st.tracks = [t]) :
    (((PartCustom.startStream true s (GumOutcome.success st)).deviceIdMatch = some true)
        ↔ (s.selectedVideoDevice ≠ "" ∧ t.settings.deviceId = some s.selectedVideoDevice))
    ∧ (((PartCustom.startStream true s (GumOutcome.success st)).deviceIdMatch = some false)
        ↔ (s.selectedVideoDevice ≠ ""
            ∧ ∃ d, t.settings.deviceId = some d ∧ d ≠ "" ∧ d ≠ s.selectedVideoDevice))
    ∧ (((PartCustom.startStream true s (GumOutcome.success st)).deviceIdMatch = none)
        ↔ (s.selectedVideoDevice = "" ∨ t.settings.deviceId = none
            ∨ t.settings.deviceId = some ""))
    ∧ (∀ (s2 : PartCustom.State) (st2 : MediaStream), s2.srcObject = some st2 →
        ((PartCustom.stopStream s2).2.1).deviceIdMatch = none) := by
  have hsel1 : ((PartCustom.stopStream s).2.1).selectedVideoDevice = s.selectedVideoDevice := by
    cases hsrc : s.srcObject <;> simp [PartCustom.stopStream, hsrc]
  have hmain : (PartCustom.startStream true s (GumOutcome.success st)).deviceIdMatch
      = (PartCustom.processTrack ((PartCustom.stopStream s).2.1) t).deviceIdMatch := by
    simp [PartCustom.startStream, hst]
  refine ⟨?_, ?_, ?_, ?_⟩
  · rw [hmain]
    cases hdid : t.settings.deviceId with
    | none =>
        have h0 : (PartCustom.processTrack ((PartCustom.stopStream s).2.1) t).deviceIdMatch
            = none := by
          simp [PartCustom.processTrack, hk, hdid]
        rw [h0]
        simp
    | some d =>
        have h0 : (PartCustom.processTrack ((PartCustom.stopStream s).2.1) t).deviceIdMatch
            = (if s.selectedVideoDevice ≠ "" ∧ d ≠ ""
               then some (s.selectedVideoDevice == d) else none) := by
          by_cases hc : s.selectedVideoDevice ≠ "" ∧ d ≠ "" <;>
            · simp only [PartCustom.processTrack, hk, hdid, hsel1]
              simp [hc]
        rw [h0]
        split_ifs with hc
        · obtain ⟨hc1, hc2⟩ := hc
          constructor
          · intro hh
            injection hh with hb
            rw [beq_iff_eq] at hb
            exact ⟨hc1, by rw [hb]⟩
          · rintro ⟨-, hh⟩
            injection hh with hds
            rw [show (s.selectedVideoDevice == d) = true by rw [beq_iff_eq]; exact hds.symm]
        · constructor
          · intro hh
            exact absurd hh (by simp)
          · rintro ⟨hne, hh⟩
            injection hh with hds
            have hdne : d ≠ "" := fun h0 => hne (hds.symm.trans h0)
            exact absurd ⟨hne, hdne⟩ hc
  · rw [hmain]
    cases hdid : t.settings.deviceId with
    | none =>
        have h0 : (PartCustom.processTrack ((PartCustom.stopStream s).2.1) t).deviceIdMatch
            = none := by
          simp [PartCustom.processTrack, hk, hdid]
        rw [h0]
        simp
    | some d =>
        have h0 : (PartCustom.processTrack ((PartCustom.stopStream s).2.1) t).deviceIdMatch
            = (if s.selectedVideoDevice ≠ "" ∧ d ≠ ""
               then some (s.selectedVideoDevice == d) else none) := by
          by_cases hc : s.selectedVideoDevice ≠ "" ∧ d ≠ "" <;>
            · simp only [PartCustom.processTrack, hk, hdid, hsel1]
              simp [hc]
        rw [h0]
        split_ifs with hc
        · obtain ⟨hc1, hc2⟩ := hc
          constructor
          · intro hh
            injection hh with hb
            rw [beq_eq_false_iff_ne] at hb
            exact ⟨hc1, d, rfl, hc2, fun h0 => hb h0.symm⟩
          · rintro ⟨hne, d2, heq, hd2ne, hd2s⟩
            injection heq with hdd
            rw [show (s.selectedVideoDevice == d) = false by
              rw [beq_eq_false_iff_ne]; exact fun h0 => hd2s (hdd.symm.trans h0.symm)]
        · constructor
          · intro hh
            exact absurd hh (by simp)
          · rintro ⟨hne, d2, heq, hd2ne, hd2s⟩
            injection heq with hdd
            exact absurd ⟨hne, fun h0 => hd2ne (hdd.symm.trans h0)⟩ hc
  · rw [hmain]
    cases hdid : t.settings.deviceId with
    | none =>
        have h0 : (PartCustom.processTrack ((PartCustom.stopStream s).2.1) t).deviceIdMatch
            = none := by
          simp [PartCustom.processTrack, hk, hdid]
        rw [h0]
        simp
    | some d =>
        have h0 : (PartCustom.processTrack ((PartCustom.stopStream s).2.1) t).deviceIdMatch
            = (if s.selectedVideoDevice ≠ "" ∧ d ≠ ""
               then some (s.selectedVideoDevice == d) else none) := by
          by_cases hc : s.selectedVideoDevice ≠ "" ∧ d ≠ "" <;>
            · simp only [PartCustom.processTrack, hk, hdid, hsel1]
              simp [hc]
        rw [h0]
        split_ifs with hc
        · obtain ⟨hc1, hc2⟩ := hc
          simp [hc1, hc2]
        · have hd0 : s.selectedVideoDevice = "" ∨ d = "" := by
            by_cases hse : s.selectedVideoDevice = ""
            · exact Or.inl hse
            · refine Or.inr ?_
              by_contra hd
              exact hc ⟨hse, hd⟩
          constructor
          · intro _
            rcases hd0 with h1 | h1
            · exact Or.inl h1
            · exact Or.inr (Or.inr (by rw [h1]))
          · intro _
            rfl
  · intro s2 st2 h2
    simp [PartCustom.stopStream, h2]

/-- Witness for C7 at the concrete sample state and one-track stream. -/
theorem claim_c7_witness :
    (((PartCustom.startStream true PartCustom.sampleState
          (GumOutcome.success sampleStream)).deviceIdMatch = some true)
        ↔ (PartCustom.sampleState.selectedVideoDevice ≠ ""
            ∧ sampleTrack.settings.deviceId = some PartCustom.sampleState.selectedVideoDevice))
    ∧ (((PartCustom.startStream true PartCustom.sampleState
          (GumOutcome.success sampleStream)).deviceIdMatch = some false)
        ↔ (PartCustom.sampleState.selectedVideoDevice ≠ ""
            ∧ ∃ d, sampleTrack.settings.deviceId = some d ∧ d ≠ ""
                ∧ d ≠ PartCustom.sampleState.selectedVideoDevice))
    ∧ (((PartCustom.startStream true PartCustom.sampleState
          (GumOutcome.success sampleStream)).deviceIdMatch = none)
        ↔ (PartCustom.sampleState.selectedVideoDevice = ""
            ∨ sampleTrack.settings.deviceId = none
            ∨ sampleTrack.settings.deviceId = some ""))
    ∧ (∀ (s2 : PartCustom.State) (st2 : MediaStream), s2.srcObject = some st2 →
        ((PartCustom.stopStream s2).2.1).deviceIdMatch = none) :=
  claim_c7 PartCustom.sampleState sampleStream sampleTrack (by decide) (by decide)

/-- C8 counterexample: in the part_000 first variant's discovery run, the
transient stream's tracks are stopped BEFORE `enumerateDevices`, so the
claimed ordering (all stops after enumeration completes) fails on a
concrete run with one granted track. -/
theorem claim_c8_counterexample :
    ¬ (eventsBefore isEnumerateEv isStopTracksEv (PartSimple.fetchTraceOk [sampleTrack] [sampleItem])
        ∧ eventsBefore isStopTracksEv isPublishEv
            (PartSimple.fetchTraceOk [sampleTrack] [sampleItem])) := by
  decide

/-- C8 amended: in every successful discovery run the transient stream's
tracks are stopped before any descriptor list is published, in both cited
variants; in the App.tsx variant the stops additionally occur after
enumeration completes, while in the part_000 first variant they occur
before enumeration. -/
theorem claim_c8_amended (g : List Track) (f : List EnumItem) :
    eventsBefore isStopTracksEv isPublishEv (PartSimple.fetchTraceOk g f)
    ∧ eventsBefore isStopTracksEv isPublishEv (AppCaps.fetchTraceOk g f)
    ∧ eventsBefore isEnumerateEv isStopTracksEv (AppCaps.fetchTraceOk g f)
    ∧ eventsBefore isStopTracksEv isEnumerateEv (PartSimple.fetchTraceOk g f) := by
  refine ⟨?_, ?_, ?_, ?_⟩ <;>
    · intro i hi j hj hp hq
      simp [PartSimple.fetchTraceOk, AppCaps.fetchTraceOk] at hi hj
      interval_cases i <;> interval_cases j <;>
        first
          | omega
          | exact Bool.noConfusion hp
          | exact Bool.noConfusion hq

/-- Witness for the amended C8 at a concrete one-track run. -/
theorem claim_c8_amended_witness :
    eventsBefore isStopTracksEv isPublishEv (PartSimple.fetchTraceOk [sampleTrack] [sampleItem])
    ∧ eventsBefore isStopTracksEv isPublishEv (AppCaps.fetchTraceOk [sampleTrack] [sampleItem])
    ∧ eventsBefore isEnumerateEv isStopTracksEv (AppCaps.fetchTraceOk [sampleTrack] [sampleItem])
    ∧ eventsBefore isStopTracksEv isEnumerateEv (PartSimple.fetchTraceOk [sampleTrack] [sampleItem]) :=
  claim_c8_amended [sampleTrack] [sampleItem]

/-- C9: a discovery run that fails with an `Error` (at either awaited
platform call) stores the failure's message as the error state, leaves the
previously published descriptor lists untouched, and ends with the loading
flag cleared — in both cited variants. -/
theorem claim_c9 (sp : PartSimple.State) (sa : AppCaps.State) (v : Thrown)
    (g : List Track) (hv : v.isError = true) :
    (((PartSimple.fetchDevices sp (FetchOutcome.gumFail v)).1.error = v.msgOf
        ∧ (PartSimple.fetchDevices sp (FetchOutcome.gumFail v)).1.videoDevices = sp.videoDevices
        ∧ (PartSimple.fetchDevices sp (FetchOutcome.gumFail v)).1.audioDevices = sp.audioDevices
        ∧ (PartSimple.fetchDevices sp (FetchOutcome.gumFail v)).1.loadingDevices = false)
      ∧ ((PartSimple.fetchDevices sp (FetchOutcome.enumFail g v)).1.error = v.msgOf
        ∧ (PartSimple.fetchDevices sp (FetchOutcome.enumFail g v)).1.videoDevices = sp.videoDevices
        ∧ (PartSimple.fetchDevices sp (FetchOutcome.enumFail g v)).1.audioDevices = sp.audioDevices
        ∧ (PartSimple.fetchDevices sp (FetchOutcome.enumFail g v)).1.loadingDevices = false))
    ∧ (((AppCaps.fetchDevices sa (FetchOutcome.gumFail v)).1.error = v.msgOf
        ∧ (AppCaps.fetchDevices sa (FetchOutcome.gumFail v)).1.videoDevices = sa.videoDevices
        ∧ (AppCaps.fetchDevices sa (FetchOutcome.gumFail v)).1.audioDevices = sa.audioDevices
        ∧ (AppCaps.fetchDevices sa (FetchOutcome.gumFail v)).1.deviceDetails = sa.deviceDetails
        ∧ (AppCaps.fetchDevices sa (FetchOutcome.gumFail v)).1.loadingDevices = false)
      ∧ ((AppCaps.fetchDevices sa (FetchOutcome.enumFail g v)).1.error = v.msgOf
        ∧ (AppCaps.fetchDevices sa (FetchOutcome.enumFail g v)).1.videoDevices = sa.videoDevices
        ∧ (AppCaps.fetchDevices sa (FetchOutcome.enumFail g v)).1.audioDevices = sa.audioDevices
        ∧ (AppCaps.fetchDevices sa (FetchOutcome.enumFail g v)).1.deviceDetails = sa.deviceDetails
        ∧ (AppCaps.fetchDevices sa (FetchOutcome.enumFail g v)).1.loadingDevices = false)) := by
  cases v with
  | nonError => simp [Thrown.isError] at hv
  | errorVal m =>
      refine ⟨⟨?_, ?_⟩, ?_, ?_⟩ <;>
        simp [PartSimple.fetchDevices, AppCaps.fetchDevices, Thrown.isError, Thrown.msgOf]

/-- Witness for C9 at concrete states and a concrete error. -/
theorem claim_c9_witness :
    (((PartSimple.fetchDevices PartSimple.sampleState
          (FetchOutcome.gumFail (Thrown.errorVal "denied"))).1.error
            = (Thrown.errorVal "denied").msgOf
        ∧ (PartSimple.fetchDevices PartSimple.sampleState
            (FetchOutcome.gumFail (Thrown.errorVal "denied"))).1.videoDevices
            = PartSimple.sampleState.videoDevices
        ∧ (PartSimple.fetchDevices PartSimple.sampleState
            (FetchOutcome.gumFail (Thrown.errorVal "denied"))).1.audioDevices
            = PartSimple.sampleState.audioDevices
        ∧ (PartSimple.fetchDevices PartSimple.sampleState
            (FetchOutcome.gumFail (Thrown.errorVal "denied"))).1.loadingDevices = false)
      ∧ ((PartSimple.fetchDevices PartSimple.sampleState
            (FetchOutcome.enumFail [sampleTrack] (Thrown.errorVal "denied"))).1.error
            = (Thrown.errorVal "denied").msgOf
        ∧ (PartSimple.fetchDevices PartSimple.sampleState
            (FetchOutcome.enumFail [sampleTrack] (Thrown.errorVal "denied"))).1.videoDevices
            = PartSimple.sampleState.videoDevices
        ∧ (PartSimple.fetchDevices PartSimple.sampleState
            (FetchOutcome.enumFail [sampleTrack] (Thrown.errorVal "denied"))).1.audioDevices
            = PartSimple.sampleState.audioDevices
        ∧ (PartSimple.fetchDevices PartSimple.sampleState
            (FetchOutcome.enumFail [sampleTrack] (Thrown.errorVal "denied"))).1.loadingDevices
            = false))
    ∧ (((AppCaps.fetchDevices AppCaps.sampleState
            (FetchOutcome.gumFail (Thrown.errorVal "denied"))).1.error
            = (Thrown.errorVal "denied").msgOf
        ∧ (AppCaps.fetchDevices AppCaps.sampleState
            (FetchOutcome.gumFail (Thrown.errorVal "denied"))).1.videoDevices
            = AppCaps.sampleState.videoDevices
        ∧ (AppCaps.fetchDevices AppCaps.sampleState
            (FetchOutcome.gumFail (Thrown.errorVal "denied"))).1.audioDevices
            = AppCaps.sampleState.audioDevices
        ∧ (AppCaps.fetchDevices AppCaps.sampleState
            (FetchOutcome.gumFail (Thrown.errorVal "denied"))).1.deviceDetails
            = AppCaps.sampleState.deviceDetails
        ∧ (AppCaps.fetchDevices AppCaps.sampleState
            (FetchOutcome.gumFail (Thrown.errorVal "denied"))).1.loadingDevices = false)
      ∧ ((AppCaps.fetchDevices AppCaps.sampleState
            (FetchOutcome.enumFail [sampleTrack] (Thrown.errorVal "denied"))).1.error
            = (Thrown.errorVal "denied").msgOf
        ∧ (AppCaps.fetchDevices AppCaps.sampleState
            (FetchOutcome.enumFail [sampleTrack] (Thrown.errorVal "denied"))).1.videoDevices
            = AppCaps.sampleState.videoDevices
        ∧ (AppCaps.fetchDevices AppCaps.sampleState
            (FetchOutcome.enumFail [sampleTrack] (Thrown.errorVal "denied"))).1.audioDevices
            = AppCaps.sampleState.audioDevices
        ∧ (AppCaps.fetchDevices AppCaps.sampleState
            (FetchOutcome.enumFail [sampleTrack] (Thrown.errorVal "denied"))).1.deviceDetails
            = AppCaps.sampleState.deviceDetails
        ∧ (AppCaps.fetchDevices AppCaps.sampleState
            (FetchOutcome.enumFail [sampleTrack] (Thrown.errorVal "denied"))).1.loadingDevices
            = false)) :=
  claim_c9 PartSimple.sampleState AppCaps.sampleState (Thrown.errorVal "denied")
    [sampleTrack] (by decide)

/-- C10 counterexample: starting from an active session, a non-`Error`
throw from the acquisition call does NOT leave all state unchanged — the
prior session was already torn down (and the requested constraints
recorded) before the throw, so the final state differs from the initial
one. -/
theorem claim_c10_counterexample :
    ¬ (PartSimple.startStream true PartSimple.activeState (GumOutcome.failure Thrown.nonError)
        = PartSimple.activeState) := by
  decide

/-- C10 amended: every thrown value is caught and the error state is
updated only for `Error` instances; on a non-`Error` throw the catch block
itself changes nothing — discovery ends in its pre-call state with only the
loading flag cleared, while the start action keeps the mutations already
made before the throw (prior session unbound, requested constraints
recorded) with the error and correspondence state untouched. -/
theorem claim_c10_amended (s2 : PartSimple.State) (s3 : AppCaps.State) (v : Thrown)
    (g : List Track) (hv : v.isError = false) :
    (AppCaps.fetchDevices s3 (FetchOutcome.gumFail v) = ({ s3 with loadingDevices := false }, [])
      ∧ AppCaps.fetchDevices s3 (FetchOutcome.enumFail g v)
          = ({ s3 with loadingDevices := false }, []))
    ∧ ((PartSimple.startStream true s2 (GumOutcome.failure v)).error = s2.error
      ∧ (PartSimple.startStream true s2 (GumOutcome.failure v)).trackCorrespondences
          = s2.trackCorrespondences
      ∧ (PartSimple.startStream true s2 (GumOutcome.failure v)).srcObject = none
      ∧ (PartSimple.startStream true s2 (GumOutcome.failure v)).requestedConstraints
          = some (PartSimple.startConstraints ((PartSimple.stopStream s2).2.1))) := by
  cases v with
  | errorVal m => simp [Thrown.isError] at hv
  | nonError =>
      refine ⟨⟨?_, ?_⟩, ?_, ?_, ?_, ?_⟩ <;>
        cases hsrc : s2.srcObject <;>
          simp [AppCaps.fetchDevices, PartSimple.startStream, PartSimple.stopStream,
            Thrown.isError, hsrc]

/-- Witness for the amended C10 at a concrete active state and a concrete
non-Error throw. -/
theorem claim_c10_amended_witness :
    (AppCaps.fetchDevices AppCaps.sampleState (FetchOutcome.gumFail Thrown.nonError)
        = ({ AppCaps.sampleState with loadingDevices := false }, [])
      ∧ AppCaps.fetchDevices AppCaps.sampleState
          (FetchOutcome.enumFail [sampleTrack] Thrown.nonError)
          = ({ AppCaps.sampleState with loadingDevices := false }, []))
    ∧ ((PartSimple.startStream true PartSimple.activeState
          (GumOutcome.failure Thrown.nonError)).error = PartSimple.activeState.error
      ∧ (PartSimple.startStream true PartSimple.activeState
          (GumOutcome.failure Thrown.nonError)).trackCorrespondences
          = PartSimple.activeState.trackCorrespondences
      ∧ (PartSimple.startStream true PartSimple.activeState
          (GumOutcome.failure Thrown.nonError)).srcObject = none
      ∧ (PartSimple.startStream true PartSimple.activeState
          (GumOutcome.failure Thrown.nonError)).requestedConstraints
          = some (PartSimple.startConstraints
              ((PartSimple.stopStream PartSimple.activeState).2.1))) :=
  claim_c10_amended PartSimple.activeState AppCaps.sampleState Thrown.nonError
    [sampleTrack] (by decide)
